import Mathlib

/-
Verification of the html5fs adapter
(src/android/external/chromium_org/native_client_sdk/src/libraries/nacl_io/html5fs/html5_fs.cc)
against its natural-language specification.

The adapter is embedded shallowly: the external PPAPI storage service is an
oracle structure `Env` of pure functions; the adapter state `Html5Fs` carries
the fields of the C++ class; every operation returns its errno result together
with the list of storage-service calls it issued, so that claims of the form
"no storage-service call is performed" are expressible.  Blocking on the
unresolved readiness gate is modelled by returning `none`.
-/

namespace NaclIo

/-- errno value ENOENT (no such file or directory). -/
def ENOENT : Int := 2

/-- errno value EIO_CODE (generic I/O error). -/
def EIO_CODE : Int := 5

/-- errno value EEXIST (file exists). -/
def EEXIST : Int := 17

/-- errno value ENOTDIR (not a directory). -/
def ENOTDIR : Int := 20

/-- errno value EISDIR (is a directory). -/
def EISDIR : Int := 21

/-- errno value EINVAL (invalid argument). -/
def EINVAL : Int := 22

/-- errno value ENOSYS (function not implemented). -/
def ENOSYS : Int := 38

/-- The adapter's error type: an errno, with 0 meaning success
(C++ `typedef int Error`). -/
abbrev Error := Int

/-- A PPAPI resource identifier; 0 is the null resource. -/
abbrev PP_Resource := Nat

/-- The PPAPI success result code PP_OK. -/
def PP_OK : Int := 0

/-- The read-only open flag O_RDONLY. -/
def O_RDONLY : Int := 0

/-- File types reported by the storage service's query primitive
(PP_FileType; any value other than directory/regular is carried as a code). -/
inductive PP_FileType where
  | directory
  | regular
  | other (code : Int)
deriving DecidableEq, Repr

/-- The two local filesystem types of PP_FileSystemType used by the adapter. -/
inductive PP_FileSystemType where
  | localPersistent
  | localTemporary
deriving DecidableEq, Repr

/-- One call issued to the external storage service (the PPAPI FileRef and
FileSystem interfaces).  Operations return the list of such calls they made. -/
inductive ServiceCall where
  | createRef (fullPath : String)
  | query (ref : PP_Resource)
  | makeDirectory (ref : PP_Resource) (recursive : Bool)
  | delete (ref : PP_Resource)
  | rename (oldRef newRef : PP_Resource)
  | isFileSystem (res : PP_Resource)
  | addRefResource (res : PP_Resource)
  | fsCreate (t : PP_FileSystemType)
  | fsOpen (res : PP_Resource) (expectedSize : Nat)
deriving DecidableEq, Repr

/-- The external storage service and node collaborator, as a deterministic
oracle.  `fileRefCreate` returns 0 for a reference-creation failure;
`fileRefQuery` returns `none` when the query result is not PP_OK;
the remaining primitives return native PPAPI result codes (PP_OK = 0). -/
structure Env where
  fileRefCreate : PP_Resource → String → PP_Resource
  fileRefQuery : PP_Resource → Option PP_FileType
  fileRefMakeDirectory : PP_Resource → Bool → Int
  fileRefDelete : PP_Resource → Int
  fileRefRename : PP_Resource → PP_Resource → Int
  nodeInit : PP_Resource → Int → Error
  isFileSystem : PP_Resource → Bool
  fileSystemCreate : PP_FileSystemType → PP_Resource
  fileSystemOpen : PP_Resource → Nat → Int
  isMainThread : Bool

/-- Modelled from the spec: the `nacl_io::Path` class is not under src/.
A logical path is its string form; the glossary defines a full path as "a
logical path with the mount's configured prefix prepended" (scenario:
prefix /saved, logical /data/a.txt, full /saved/data/a.txt). -/
abbrev Path := String

/-- Modelled from the spec: `Path::Prepend` prepends the prefix to the path. -/
def Path.Prepend (pre : String) (p : Path) : Path := pre ++ p

/-- Modelled from the spec: `Path::Join` renders the path as a string. -/
def Path.Join (p : Path) : String := p

/-- Modelled from the spec: `Path::IsRoot` holds exactly for the root
logical path. -/
def Path.IsRoot (p : Path) : Bool := p = "/"

/-- Modelled from the spec: `PPErrorToErrno` (nacl_io's translation of native
storage-service result codes, defined outside src/) maps results through a
fixed table: PP_OK maps to success and unmapped failure codes fall back to the
generic I/O error. -/
def PPErrorToErrno (result : Int) : Error :=
  if result = PP_OK then 0 else EIO_CODE

/-- Modelled from the spec: the removal restriction mask constants of
html5_fs.h (not under src/): file-only and directory-only bits. -/
def REMOVE_FILE : Nat := 1

/-- Modelled from the spec: directory-only removal bit. -/
def REMOVE_DIR : Nat := 2

/-- Modelled from the spec: unrestricted removal, the union of both bits. -/
def REMOVE_ALL : Nat := REMOVE_FILE ||| REMOVE_DIR

/-- The state of one mounted Html5Fs instance: the storage filesystem handle,
the readiness-gate fields, and the path prefix (members of the C++ class;
the constructor initializes the first three to 0/false/0). -/
structure Html5Fs where
  filesystem_resource_ : PP_Resource
  filesystem_open_has_result_ : Bool
  filesystem_open_error_ : Error
  prefix_ : String
deriving DecidableEq, Repr

namespace Html5Fs

/-- The Html5Fs constructor: null resource, unresolved gate, empty prefix. -/
def init : Html5Fs :=
  { filesystem_resource_ := 0
    filesystem_open_has_result_ := false
    filesystem_open_error_ := 0
    prefix_ := "" }

/-- Embeds `Html5Fs::BlockUntilFilesystemOpen`: waits until the gate has a result and
returns the stored error.  `none` models the caller blocking forever on an
unresolved gate. -/
def BlockUntilFilesystemOpen (fs : Html5Fs) : Option Error :=
  if fs.filesystem_open_has_result_ then some fs.filesystem_open_error_ else none

/-- Embeds `Html5Fs::FilesystemOpenCallback`: records that the gate has a result and
stores the translated error (overwriting any previous value), then signals
waiters. -/
def FilesystemOpenCallback (fs : Html5Fs) (result : Int) : Html5Fs :=
  { fs with
      filesystem_open_has_result_ := true
      filesystem_open_error_ := PPErrorToErrno result }

/-- Embeds `Html5Fs::GetFullPath`: copies the path and prepends the prefix. -/
def GetFullPath (fs : Html5Fs) (path : Path) : Path :=
  Path.Prepend fs.prefix_ path

/-- The per-open file node: constructed from the entry reference
(Html5FsNode(this, fileref)); its Init step is the oracle's `nodeInit`. -/
structure Node where
  fileref : PP_Resource
deriving DecidableEq, Repr

/-- Embeds `Html5Fs::Open`: resets the out node, waits on the gate, creates an entry
reference for the full path (ENOENT if none), constructs a node and runs its
Init with the open flags (propagating failure), then stores the node.
Returns (errno, out node, storage-service calls); `none` when blocked. -/
def Open (env : Env) (fs : Html5Fs) (path : Path) (open_flags : Int) :
    Option (Error × Option Node × List ServiceCall) :=
  match fs.BlockUntilFilesystemOpen with
  | none => none
  | some error =>
    if error ≠ 0 then some (error, none, []) else
    let full := (fs.GetFullPath path).Join
    let fileref := env.fileRefCreate fs.filesystem_resource_ full
    if fileref = 0 then some (ENOENT, none, [ServiceCall.createRef full]) else
    let ierr := env.nodeInit fileref open_flags
    if ierr ≠ 0 then some (ierr, none, [ServiceCall.createRef full]) else
    some (0, some { fileref := fileref }, [ServiceCall.createRef full])

/-- Embeds `Html5Fs::Access`: the mode is unused; opens the path read-only and
discards the node. -/
def Access (env : Env) (fs : Html5Fs) (path : Path) (a_mode : Int) :
    Option (Error × List ServiceCall) :=
  match Open env fs path O_RDONLY with
  | none => none
  | some (e, _, calls) => some (e, calls)

/-- Embeds `Html5Fs::Mkdir`: waits on the gate, remaps root creation to EEXIST,
creates a reference for the full path (ENOENT if none), then issues a
non-recursive MakeDirectory and translates a failing result. -/
def Mkdir (env : Env) (fs : Html5Fs) (path : Path) (permissions : Int) :
    Option (Error × List ServiceCall) :=
  match fs.BlockUntilFilesystemOpen with
  | none => none
  | some error =>
    if error ≠ 0 then some (error, []) else
    if path.IsRoot then some (EEXIST, []) else
    let full := (fs.GetFullPath path).Join
    let fileref := env.fileRefCreate fs.filesystem_resource_ full
    if fileref = 0 then some (ENOENT, [ServiceCall.createRef full]) else
    let result := env.fileRefMakeDirectory fileref false
    let calls := [ServiceCall.createRef full, ServiceCall.makeDirectory fileref false]
    if result ≠ PP_OK then some (PPErrorToErrno result, calls) else
    some (0, calls)

/-- Embeds `Html5Fs::RemoveInternal`: waits on the gate, creates a reference for the
full path (ENOENT if none); unless the mask is unrestricted, queries the entry
type (EINVAL on query failure; EISDIR for a directory when directories are
forbidden; ENOTDIR for a regular file when files are forbidden; EINVAL for any
other type), then issues the delete and translates a failing result. -/
def RemoveInternal (env : Env) (fs : Html5Fs) (path : Path) (remove_type : Nat) :
    Option (Error × List ServiceCall) :=
  match fs.BlockUntilFilesystemOpen with
  | none => none
  | some error =>
    if error ≠ 0 then some (error, []) else
    let full := (fs.GetFullPath path).Join
    let fileref := env.fileRefCreate fs.filesystem_resource_ full
    if fileref = 0 then some (ENOENT, [ServiceCall.createRef full]) else
    let deleteStep : List ServiceCall → Option (Error × List ServiceCall) :=
      fun calls =>
        let result := env.fileRefDelete fileref
        let calls := calls ++ [ServiceCall.delete fileref]
        if result ≠ PP_OK then some (PPErrorToErrno result, calls) else
        some (0, calls)
    if remove_type ≠ REMOVE_ALL then
      let calls := [ServiceCall.createRef full, ServiceCall.query fileref]
      match env.fileRefQuery fileref with
      | none => some (EINVAL, calls)
      | some PP_FileType.directory =>
        if remove_type &&& REMOVE_DIR = 0 then some (EISDIR, calls)
        else deleteStep calls
      | some PP_FileType.regular =>
        if remove_type &&& REMOVE_FILE = 0 then some (ENOTDIR, calls)
        else deleteStep calls
      | some (PP_FileType.other _) => some (EINVAL, calls)
    else deleteStep [ServiceCall.createRef full]

/-- Embeds `Html5Fs::Unlink`: removal restricted to regular files. -/
def Unlink (env : Env) (fs : Html5Fs) (path : Path) :
    Option (Error × List ServiceCall) :=
  RemoveInternal env fs path REMOVE_FILE

/-- Embeds `Html5Fs::Rmdir`: removal restricted to directories. -/
def Rmdir (env : Env) (fs : Html5Fs) (path : Path) :
    Option (Error × List ServiceCall) :=
  RemoveInternal env fs path REMOVE_DIR

/-- Embeds `Html5Fs::Remove`: unrestricted removal. -/
def Remove (env : Env) (fs : Html5Fs) (path : Path) :
    Option (Error × List ServiceCall) :=
  RemoveInternal env fs path REMOVE_ALL

/-- Embeds `Html5Fs::Rename` (intended dataflow; the C++ source takes `c_str()` of a
destroyed temporary for both full-path strings, see the development notes):
waits on the gate, creates a reference for the old full path (ENOENT if none),
then for the new full path (ENOENT if none), then issues the rename with the
old reference as source and the new reference as destination and translates a
failing result. -/
def Rename (env : Env) (fs : Html5Fs) (path newpath : Path) :
    Option (Error × List ServiceCall) :=
  match fs.BlockUntilFilesystemOpen with
  | none => none
  | some error =>
    if error ≠ 0 then some (error, []) else
    let oldFull := (fs.GetFullPath path).Join
    let fileref := env.fileRefCreate fs.filesystem_resource_ oldFull
    if fileref = 0 then some (ENOENT, [ServiceCall.createRef oldFull]) else
    let newFull := (fs.GetFullPath newpath).Join
    let newFileref := env.fileRefCreate fs.filesystem_resource_ newFull
    if newFileref = 0 then
      some (ENOENT, [ServiceCall.createRef oldFull, ServiceCall.createRef newFull])
    else
    let result := env.fileRefRename fileref newFileref
    let calls := [ServiceCall.createRef oldFull, ServiceCall.createRef newFull,
                  ServiceCall.rename fileref newFileref]
    if result ≠ PP_OK then some (PPErrorToErrno result, calls) else
    some (0, calls)

end Html5Fs

/-- Decimal value of a digit character. -/
def digitVal (c : Char) : Nat := c.toNat - 48

/-- Modelled from libc semantics: `strtoull(s, NULL, 10)` reads the longest
leading run of decimal digits of `s` and returns its value (0 when there is
none). -/
def strtoull (s : String) : Nat :=
  (s.toList.takeWhile Char.isDigit).foldl (fun acc c => 10 * acc + digitVal c) 0

/-- The mount-time initialization arguments: whether a ppapi interface pointer
was supplied, and the string key/value configuration map.  The C++ map is a
std::map, so the list is taken in its iteration order (sorted by key). -/
structure FsInitArgs where
  ppapi : Bool
  string_map : List (String × String)

namespace Html5Fs

/-- The mutable state threaded through Init's configuration-parsing loop:
the chosen filesystem type, the expected-size hint, the instance being
initialized, and the storage-service calls issued so far. -/
structure ParseState where
  filesystem_type : PP_FileSystemType
  expected_size : Nat
  fs : Html5Fs
  calls : List ServiceCall
deriving DecidableEq, Repr

/-- The parse loop's starting state: LOCALPERSISTENT type, size hint 0,
a freshly constructed instance, no calls issued. -/
def ParseState.start : ParseState :=
  { filesystem_type := PP_FileSystemType.localPersistent
    expected_size := 0
    fs := Html5Fs.init
    calls := [] }

/-- One iteration of Init's configuration loop: `type` selects the filesystem
type (PERSISTENT/TEMPORARY/empty; anything else is EINVAL); `expected_size`
parses a size hint; `filesystem_resource` parses a resource id (truncated to
32 bits by the int32 assignment), validates it with IsFileSystem (EINVAL when
invalid) and adopts it with an added reference; `SOURCE` sets the prefix; any
other key is EINVAL. -/
def parseArg (env : Env) (st : ParseState) (kv : String × String) :
    Except (Error × ParseState) ParseState :=
  if kv.1 = "type" then
    if kv.2 = "PERSISTENT" then
      Except.ok { st with filesystem_type := PP_FileSystemType.localPersistent }
    else if kv.2 = "TEMPORARY" then
      Except.ok { st with filesystem_type := PP_FileSystemType.localTemporary }
    else if kv.2 = "" then
      Except.ok { st with filesystem_type := PP_FileSystemType.localPersistent }
    else
      Except.error (EINVAL, st)
  else if kv.1 = "expected_size" then
    Except.ok { st with expected_size := strtoull kv.2 }
  else if kv.1 = "filesystem_resource" then
    let resource : PP_Resource := strtoull kv.2 % 2 ^ 32
    let st := { st with calls := st.calls ++ [ServiceCall.isFileSystem resource] }
    if ¬ env.isFileSystem resource then
      Except.error (EINVAL, st)
    else
      Except.ok { st with
        fs := { st.fs with filesystem_resource_ := resource }
        calls := st.calls ++ [ServiceCall.addRefResource resource] }
  else if kv.1 = "SOURCE" then
    Except.ok { st with fs := { st.fs with prefix_ := kv.2 } }
  else
    Except.error (EINVAL, st)

/-- Init's configuration loop over the map entries, in iteration order,
short-circuiting on the first configuration error. -/
def parseArgs (env : Env) (st : ParseState) :
    List (String × String) → Except (Error × ParseState) ParseState
  | [] => Except.ok st
  | kv :: rest =>
    match parseArg env st kv with
    | Except.error e => Except.error e
    | Except.ok st => parseArgs env st rest

/-- Embeds `Html5Fs::Init`: requires a ppapi interface (ENOSYS otherwise), parses the
configuration map; a pre-supplied filesystem resource resolves the gate
immediately to PP_OK and returns success.  Otherwise it creates a filesystem
of the chosen type (ENOSYS on a null handle) and opens it: on the main thread
the open is asynchronous (a completion callback resolves the gate later) and
Init returns success presuming the open will succeed; off the main thread the
open blocks and its translated result both resolves the gate and is returned.
Returns (errno, instance state, storage-service calls). -/
def Init (env : Env) (args : FsInitArgs) : Error × Html5Fs × List ServiceCall :=
  if ¬ args.ppapi then (ENOSYS, Html5Fs.init, []) else
  match parseArgs env ParseState.start args.string_map with
  | Except.error (e, st) => (e, st.fs, st.calls)
  | Except.ok st =>
    if st.fs.filesystem_resource_ ≠ 0 then
      (0,
       { st.fs with
           filesystem_open_has_result_ := true
           filesystem_open_error_ := PPErrorToErrno PP_OK },
       st.calls)
    else
    let resource := env.fileSystemCreate st.filesystem_type
    let calls := st.calls ++ [ServiceCall.fsCreate st.filesystem_type]
    if resource = 0 then (ENOSYS, st.fs, calls) else
    let fs := { st.fs with filesystem_resource_ := resource }
    let calls := calls ++ [ServiceCall.fsOpen resource st.expected_size]
    if env.isMainThread then
      (0, fs, calls)
    else
      let result := env.fileSystemOpen resource st.expected_size
      let e := PPErrorToErrno result
      (e,
       { fs with
           filesystem_open_has_result_ := true
           filesystem_open_error_ := e },
       calls)

end Html5Fs

/-
Concrete oracles and instance states used by the witness and counterexample
theorems below.
-/

/-- A storage-service oracle on which every reference creation fails and every
primitive returns PP_OK. -/
def envNull : Env :=
  { fileRefCreate := fun _ _ => 0
    fileRefQuery := fun _ => none
    fileRefMakeDirectory := fun _ _ => 0
    fileRefDelete := fun _ => 0
    fileRefRename := fun _ _ => 0
    nodeInit := fun _ _ => 0
    isFileSystem := fun _ => false
    fileSystemCreate := fun _ => 0
    fileSystemOpen := fun _ _ => 0
    isMainThread := false }

/-- An oracle on which every reference creation yields resource 7 and node
initialization succeeds. -/
def envCreate7 : Env := { envNull with fileRefCreate := fun _ _ => 7 }

/-- An oracle like `envCreate7` whose type query reports a directory. -/
def envDir7 : Env :=
  { envCreate7 with fileRefQuery := fun _ => some PP_FileType.directory }

/-- An oracle like `envCreate7` whose type query reports a regular file. -/
def envReg7 : Env :=
  { envCreate7 with fileRefQuery := fun _ => some PP_FileType.regular }

/-- An oracle that validates only resource 7 as a filesystem handle. -/
def envValid7 : Env := { envNull with isFileSystem := fun r => r == 7 }

/-- An instance whose gate has resolved with the failure outcome EIO_CODE. -/
def fsGateFailed : Html5Fs :=
  { filesystem_resource_ := 1
    filesystem_open_has_result_ := true
    filesystem_open_error_ := EIO_CODE
    prefix_ := "/p" }

/-- An instance whose gate has resolved successfully, with prefix /p. -/
def fsReady : Html5Fs :=
  { filesystem_resource_ := 1
    filesystem_open_has_result_ := true
    filesystem_open_error_ := 0
    prefix_ := "/p" }

open Html5Fs

/-- A list of storage-service calls that contains only filesystem-handle
validation checks and reference additions — in particular no filesystem
create request and no open request. -/
def handleCallsOnly (cs : List ServiceCall) : Prop :=
  ∀ c ∈ cs, (∃ r, c = ServiceCall.isFileSystem r) ∨ (∃ r, c = ServiceCall.addRefResource r)

/-- A configuration entry Init rejects: an unrecognized key, or `type` mapped
to a value other than PERSISTENT, TEMPORARY or the empty string. -/
def badEntry (k v : String) : Prop :=
  (k ≠ "type" ∧ k ≠ "expected_size" ∧ k ≠ "filesystem_resource" ∧ k ≠ "SOURCE") ∨
  (k = "type" ∧ v ≠ "PERSISTENT" ∧ v ≠ "TEMPORARY" ∧ v ≠ "")

/-- The parse state reached after processing a pre-supplied, validated
filesystem_resource entry with identifier 7. -/
def stRes7 : ParseState :=
  { filesystem_type := PP_FileSystemType.localPersistent
    expected_size := 0
    fs := { filesystem_resource_ := 7
            filesystem_open_has_result_ := false
            filesystem_open_error_ := 0
            prefix_ := "" }
    calls := [ServiceCall.isFileSystem 7, ServiceCall.addRefResource 7] }

/-
Helper lemmas about the configuration-parsing loop.
-/

/-- Splitting the parse loop across a list append. -/
theorem parseArgs_append (env : Env) (st : ParseState)
    (l1 l2 : List (String × String)) :
    parseArgs env st (l1 ++ l2)
      = match parseArgs env st l1 with
        | Except.ok st1 => parseArgs env st1 l2
        | Except.error e => Except.error e := by
  induction l1 generalizing st with
  | nil => rfl
  | cons kv rest ih =>
    simp only [List.cons_append, parseArgs]
    cases hp : parseArg env st kv with
    | error e => rfl
    | ok st1 => exact ih st1

/-- Appending a handle-validation or reference-addition call preserves
`handleCallsOnly`. -/
theorem handleCallsOnly_snoc (cs : List ServiceCall) (c0 : ServiceCall)
    (h : handleCallsOnly cs)
    (h0 : (∃ r, c0 = ServiceCall.isFileSystem r) ∨
          (∃ r, c0 = ServiceCall.addRefResource r)) :
    handleCallsOnly (cs ++ [c0]) := by
  intro c hc
  rcases List.mem_append.mp hc with hc | hc
  · exact h c hc
  · rw [List.mem_singleton] at hc
    subst hc
    exact h0

/-- One parse step preserves the absence of create/open calls in the
accumulated call list, whether it succeeds or fails. -/
theorem parseArg_handle_calls (env : Env) (st0 : ParseState) (kv : String × String)
    (h : handleCallsOnly st0.calls) :
    (∀ st, parseArg env st0 kv = Except.ok st → handleCallsOnly st.calls) ∧
    (∀ e st, parseArg env st0 kv = Except.error (e, st) → handleCallsOnly st.calls) := by
  have hsnoc1 := handleCallsOnly_snoc st0.calls
      (ServiceCall.isFileSystem (strtoull kv.2 % 2 ^ 32)) h (Or.inl ⟨_, rfl⟩)
  have hsnoc2 := handleCallsOnly_snoc _
      (ServiceCall.addRefResource (strtoull kv.2 % 2 ^ 32)) hsnoc1 (Or.inr ⟨_, rfl⟩)
  unfold parseArg
  dsimp only
  split_ifs <;>
    refine ⟨fun st hst => ?_, fun e st hst => ?_⟩ <;>
    first
    | exact hst.elim
    | exact Except.noConfusion hst
    | (obtain h1 := Except.ok.inj hst
       subst h1
       first
       | exact h
       | exact hsnoc2)
    | (obtain h1 := Except.error.inj hst
       rw [Prod.mk.injEq] at h1
       obtain ⟨-, h2⟩ := h1
       subst h2
       first
       | exact h
       | exact hsnoc1)

/-- The parse loop never accumulates a create or open call. -/
theorem parseArgs_handle_calls (env : Env) :
    ∀ (l : List (String × String)) (st0 : ParseState),
      handleCallsOnly st0.calls →
      (∀ st, parseArgs env st0 l = Except.ok st → handleCallsOnly st.calls) ∧
      (∀ e st, parseArgs env st0 l = Except.error (e, st) → handleCallsOnly st.calls) := by
  intro l
  induction l with
  | nil =>
    intro st0 h
    refine ⟨fun st hst => ?_, fun e st hst => ?_⟩
    · obtain h1 := Except.ok.inj hst
      subst h1
      exact h
    · simp [parseArgs] at hst
  | cons kv rest ih =>
    intro st0 h
    have hstep := parseArg_handle_calls env st0 kv h
    constructor
    · intro st hst
      unfold parseArgs at hst
      cases hp : parseArg env st0 kv with
      | error epair =>
        rw [hp] at hst
        simp only [] at hst
        exact Except.noConfusion hst
      | ok st1 =>
        rw [hp] at hst
        simp only [] at hst
        exact (ih st1 (hstep.1 st1 hp)).1 st hst
    · intro e st hst
      unfold parseArgs at hst
      cases hp : parseArg env st0 kv with
      | error epair =>
        rw [hp] at hst
        simp only [] at hst
        obtain h1 := Except.error.inj hst
        rw [h1] at hp
        exact hstep.2 e st hp
      | ok st1 =>
        rw [hp] at hst
        simp only [] at hst
        exact (ih st1 (hstep.1 st1 hp)).2 e st hst

/-- A rejected configuration entry makes the parse step fail with EINVAL and
an unchanged state. -/
theorem parseArg_bad (env : Env) (st : ParseState) (k v : String)
    (hbad : badEntry k v) :
    parseArg env st (k, v) = Except.error (EINVAL, st) := by
  unfold parseArg
  rcases hbad with ⟨h1, h2, h3, h4⟩ | ⟨h1, h2, h3, h4⟩ <;> split_ifs <;> simp_all

/-- A successful parse that set a nonzero filesystem resource got it from a
filesystem_resource entry of the map whose identifier the storage service
validated. -/
theorem parseArgs_resource_source (env : Env) :
    ∀ (l : List (String × String)) (st0 st : ParseState),
      parseArgs env st0 l = Except.ok st →
      st.fs.filesystem_resource_ ≠ 0 →
      st0.fs.filesystem_resource_ = st.fs.filesystem_resource_ ∨
      ∃ s, ("filesystem_resource", s) ∈ l ∧
        strtoull s % 2 ^ 32 = st.fs.filesystem_resource_ ∧
        env.isFileSystem st.fs.filesystem_resource_ = true := by
  intro l
  induction l with
  | nil =>
    intro st0 st h hne
    obtain h1 := Except.ok.inj h
    subst h1
    exact Or.inl rfl
  | cons kv rest ih =>
    intro st0 st h hne
    unfold parseArgs at h
    cases hp : parseArg env st0 kv with
    | error epair =>
      rw [hp] at h
      simp only [] at h
      exact Except.noConfusion h
    | ok st1 =>
      rw [hp] at h
      simp only [] at h
      rcases ih st1 st h hne with heq | ⟨s, hmem, hs⟩
      · unfold parseArg at hp
        dsimp only at hp
        split_ifs at hp <;>
          first
          | exact Except.noConfusion hp
          | (obtain hq := Except.ok.inj hp
             subst hq
             exact Or.inl heq)
          | (obtain hq := Except.ok.inj hp
             subst hq
             have hk : kv.1 = "filesystem_resource" := by assumption
             have hv : env.isFileSystem (strtoull kv.2 % 2 ^ 32) = true := by
               assumption
             refine Or.inr ⟨kv.2, ?_, ?_, ?_⟩
             · rw [← hk]
               exact List.mem_cons_self kv rest
             · exact heq
             · rw [← heq]
               exact hv)
      · exact Or.inr ⟨s, List.mem_cons_of_mem kv hmem, hs⟩

/-
Claim theorems.
-/

/-- C1: once the readiness gate has resolved with a failure outcome, every
operation (access, open, mkdir, rmdir, unlink, remove, rename) returns exactly
the stored gate error and issues no storage-service call.  The operations do
not modify the instance state, so the same holds for every subsequent call. -/
theorem gate_failure_short_circuits (env : Env) (fs : Html5Fs) (e : Error)
    (hres : fs.filesystem_open_has_result_ = true)
    (herr : fs.filesystem_open_error_ = e) (hne : e ≠ 0)
    (p q : Path) (flags mode perms : Int) :
    Html5Fs.Access env fs p mode = some (e, []) ∧
    Html5Fs.Open env fs p flags = some (e, none, []) ∧
    Html5Fs.Mkdir env fs p perms = some (e, []) ∧
    Html5Fs.Rmdir env fs p = some (e, []) ∧
    Html5Fs.Unlink env fs p = some (e, []) ∧
    Html5Fs.Remove env fs p = some (e, []) ∧
    Html5Fs.Rename env fs p q = some (e, []) := by
  subst herr
  simp [Html5Fs.Access, Html5Fs.Open, Html5Fs.Mkdir, Html5Fs.Rmdir,
        Html5Fs.Unlink, Html5Fs.Remove, Html5Fs.RemoveInternal, Html5Fs.Rename,
        Html5Fs.BlockUntilFilesystemOpen, hres, hne]

/-- C1 witness: the failed-gate instance short-circuits concrete calls. -/
theorem gate_failure_short_circuits_witness :
    Html5Fs.Open envNull fsGateFailed "/a" 0 = some (EIO_CODE, none, []) ∧
    Html5Fs.Rename envNull fsGateFailed "/a" "/b" = some (EIO_CODE, []) :=
  ⟨(gate_failure_short_circuits envNull fsGateFailed EIO_CODE rfl rfl (by decide)
      "/a" "/b" 0 0 0).2.1,
   (gate_failure_short_circuits envNull fsGateFailed EIO_CODE rfl rfl (by decide)
      "/a" "/b" 0 0 0).2.2.2.2.2.2⟩

/-- C3 counterexample: the stored gate outcome is not immutable after
resolution — resolving a second time with a different native result changes
the outcome returned to callers (the callback overwrites the stored error
unconditionally). -/
theorem resolve_twice_changes_outcome :
    Html5Fs.BlockUntilFilesystemOpen fsReady = some 0 ∧
    Html5Fs.BlockUntilFilesystemOpen (Html5Fs.FilesystemOpenCallback fsReady (-1))
      = some EIO_CODE ∧
    (0 : Error) ≠ EIO_CODE := by decide

/-- C3 (amended): the resolved flag never reverts, re-resolving with the same
native result leaves the state unchanged, and after any resolution every
caller of the gate observes the translation of the latest result; a second
resolution with a different result, however, overwrites the stored outcome. -/
theorem resolve_overwrites_with_latest (fs : Html5Fs) (result : Int) :
    (Html5Fs.FilesystemOpenCallback fs result).filesystem_open_has_result_ = true ∧
    Html5Fs.FilesystemOpenCallback (Html5Fs.FilesystemOpenCallback fs result) result
      = Html5Fs.FilesystemOpenCallback fs result ∧
    Html5Fs.BlockUntilFilesystemOpen (Html5Fs.FilesystemOpenCallback fs result)
      = some (PPErrorToErrno result) := by
  refine ⟨rfl, rfl, rfl⟩

/-- C4 counterexample: mkdir on the root logical path does not return
AlreadyExists regardless of the gate outcome — with a failed gate it returns
the stored gate error instead (the gate check precedes the root check). -/
theorem mkdir_root_gate_failure_counterexample :
    Html5Fs.Mkdir envNull fsGateFailed "/" 0 = some (EIO_CODE, []) ∧
    EIO_CODE ≠ EEXIST := by decide

/-- C4 (amended): for every permissions argument, when the readiness gate has
resolved successfully, mkdir on the root logical path returns AlreadyExists
without any storage-service call; with a failed gate it returns the stored
gate error instead. -/
theorem mkdir_root_eexists (env : Env) (fs : Html5Fs) (p : Path) (perms : Int)
    (hres : fs.filesystem_open_has_result_ = true)
    (hok : fs.filesystem_open_error_ = 0)
    (hroot : p.IsRoot = true) :
    Html5Fs.Mkdir env fs p perms = some (EEXIST, []) := by
  simp [Html5Fs.Mkdir, Html5Fs.BlockUntilFilesystemOpen, hres, hok, hroot]

/-- C4 witness: mkdir on the root of a successfully opened instance. -/
theorem mkdir_root_eexists_witness :
    Html5Fs.Mkdir envCreate7 fsReady "/" 0 = some (EEXIST, []) :=
  mkdir_root_eexists envCreate7 fsReady "/" 0 rfl rfl (by decide)

/-- C2: with the gate resolved successfully and an entry reference obtained,
unlink on a directory returns EISDIR, rmdir on a regular file returns ENOTDIR,
any other queried type under unlink or rmdir returns EINVAL, a failed type
query returns EINVAL, and remove performs no type query and issues the delete
unconditionally. -/
theorem remove_type_policy (env : Env) (fs : Html5Fs) (p : Path) (r : PP_Resource)
    (hres : fs.filesystem_open_has_result_ = true)
    (hok : fs.filesystem_open_error_ = 0)
    (hcreate : env.fileRefCreate fs.filesystem_resource_ ((fs.GetFullPath p).Join) = r)
    (hr : r ≠ 0) :
    (env.fileRefQuery r = some PP_FileType.directory →
      Html5Fs.Unlink env fs p
        = some (EISDIR, [ServiceCall.createRef ((fs.GetFullPath p).Join),
                         ServiceCall.query r])) ∧
    (env.fileRefQuery r = some PP_FileType.regular →
      Html5Fs.Rmdir env fs p
        = some (ENOTDIR, [ServiceCall.createRef ((fs.GetFullPath p).Join),
                          ServiceCall.query r])) ∧
    (∀ c, env.fileRefQuery r = some (PP_FileType.other c) →
      Html5Fs.Unlink env fs p
        = some (EINVAL, [ServiceCall.createRef ((fs.GetFullPath p).Join),
                         ServiceCall.query r]) ∧
      Html5Fs.Rmdir env fs p
        = some (EINVAL, [ServiceCall.createRef ((fs.GetFullPath p).Join),
                         ServiceCall.query r])) ∧
    (env.fileRefQuery r = none →
      Html5Fs.Unlink env fs p
        = some (EINVAL, [ServiceCall.createRef ((fs.GetFullPath p).Join),
                         ServiceCall.query r]) ∧
      Html5Fs.Rmdir env fs p
        = some (EINVAL, [ServiceCall.createRef ((fs.GetFullPath p).Join),
                         ServiceCall.query r])) ∧
    (Html5Fs.Remove env fs p
      = if env.fileRefDelete r ≠ PP_OK then
          some (PPErrorToErrno (env.fileRefDelete r),
                [ServiceCall.createRef ((fs.GetFullPath p).Join),
                 ServiceCall.delete r])
        else
          some (0, [ServiceCall.createRef ((fs.GetFullPath p).Join),
                    ServiceCall.delete r])) := by
  have hFA : REMOVE_FILE ≠ REMOVE_ALL := by decide
  have hDA : REMOVE_DIR ≠ REMOVE_ALL := by decide
  have hFD : REMOVE_FILE &&& REMOVE_DIR = 0 := by decide
  have hDF : REMOVE_DIR &&& REMOVE_FILE = 0 := by decide
  refine ⟨fun hq => ?_, fun hq => ?_, fun c hq => ⟨?_, ?_⟩, fun hq => ⟨?_, ?_⟩, ?_⟩ <;>
    simp_all [Html5Fs.Unlink, Html5Fs.Rmdir, Html5Fs.Remove, Html5Fs.RemoveInternal,
              Html5Fs.BlockUntilFilesystemOpen]

/-- C2 witness: unlinking a concrete directory entry yields EISDIR with the
reference creation and type query as the only storage-service calls. -/
theorem remove_type_policy_witness :
    Html5Fs.Unlink envDir7 fsReady "/a"
      = some (EISDIR, [ServiceCall.createRef "/p/a", ServiceCall.query 7]) :=
  (remove_type_policy envDir7 fsReady "/a" 7 rfl rfl (by decide) (by decide)).1 rfl

/-- C7: with the gate resolved successfully, rename returns ENOENT when the
old full path yields no entry reference (issuing only that creation), returns
ENOENT when the old path resolves but the new full path yields no reference
(issuing only the two creations, no rename request), and only with both
references obtained issues the rename with the old reference as source and
the new reference as destination. -/
theorem rename_notfound_short_circuit (env : Env) (fs : Html5Fs) (p q : Path)
    (hres : fs.filesystem_open_has_result_ = true)
    (hok : fs.filesystem_open_error_ = 0) :
    (env.fileRefCreate fs.filesystem_resource_ ((fs.GetFullPath p).Join) = 0 →
      Html5Fs.Rename env fs p q
        = some (ENOENT, [ServiceCall.createRef ((fs.GetFullPath p).Join)])) ∧
    (∀ r, env.fileRefCreate fs.filesystem_resource_ ((fs.GetFullPath p).Join) = r →
      r ≠ 0 →
      env.fileRefCreate fs.filesystem_resource_ ((fs.GetFullPath q).Join) = 0 →
      Html5Fs.Rename env fs p q
        = some (ENOENT, [ServiceCall.createRef ((fs.GetFullPath p).Join),
                         ServiceCall.createRef ((fs.GetFullPath q).Join)])) ∧
    (∀ r r2, env.fileRefCreate fs.filesystem_resource_ ((fs.GetFullPath p).Join) = r →
      r ≠ 0 →
      env.fileRefCreate fs.filesystem_resource_ ((fs.GetFullPath q).Join) = r2 →
      r2 ≠ 0 →
      Html5Fs.Rename env fs p q
        = if env.fileRefRename r r2 ≠ PP_OK then
            some (PPErrorToErrno (env.fileRefRename r r2),
                  [ServiceCall.createRef ((fs.GetFullPath p).Join),
                   ServiceCall.createRef ((fs.GetFullPath q).Join),
                   ServiceCall.rename r r2])
          else
            some (0, [ServiceCall.createRef ((fs.GetFullPath p).Join),
                      ServiceCall.createRef ((fs.GetFullPath q).Join),
                      ServiceCall.rename r r2])) := by
  refine ⟨fun h1 => ?_, fun r hr1 hr2 h2 => ?_, fun r r2 hr1 hr2 hr3 hr4 => ?_⟩ <;>
    simp_all [Html5Fs.Rename, Html5Fs.BlockUntilFilesystemOpen]

/-- C7 witness: with an oracle on which no reference can be created, a
concrete rename returns ENOENT after only the old-path creation attempt. -/
theorem rename_notfound_short_circuit_witness :
    Html5Fs.Rename envNull fsReady "/a" "/b"
      = some (ENOENT, [ServiceCall.createRef "/p/a"]) :=
  (rename_notfound_short_circuit envNull fsReady "/a" "/b" rfl rfl).1 (by decide)

/-- C5 (intended dataflow): every entry-reference creation issued by any
operation carries the prefix-qualified full path — the configured prefix
prepended to the logical path (for rename, to its respective logical path).
Note the C++ `Html5Fs::Rename` itself undermines this: lines 150 and 158 keep
only the `c_str()` of a `Join()` temporary that is destroyed at the end of the
statement, so the pointers actually handed to the storage service dangle;
the statement below is about the value flow the code intends. -/
theorem created_paths_are_prefixed (env : Env) (fs : Html5Fs) (p q : Path)
    (flags mode perms : Int) (rt : Nat) (s : String) :
    (∀ x, Html5Fs.Open env fs p flags = some x →
      ServiceCall.createRef s ∈ x.2.2 → s = fs.prefix_ ++ p) ∧
    (∀ x, Html5Fs.Access env fs p mode = some x →
      ServiceCall.createRef s ∈ x.2 → s = fs.prefix_ ++ p) ∧
    (∀ x, Html5Fs.Mkdir env fs p perms = some x →
      ServiceCall.createRef s ∈ x.2 → s = fs.prefix_ ++ p) ∧
    (∀ x, Html5Fs.RemoveInternal env fs p rt = some x →
      ServiceCall.createRef s ∈ x.2 → s = fs.prefix_ ++ p) ∧
    (∀ x, Html5Fs.Rename env fs p q = some x →
      ServiceCall.createRef s ∈ x.2 → s = fs.prefix_ ++ p ∨ s = fs.prefix_ ++ q) := by
  have hopen : ∀ fl x, Html5Fs.Open env fs p fl = some x →
      ServiceCall.createRef s ∈ x.2.2 → s = fs.prefix_ ++ p := by
    intro fl x hx hmem
    unfold Html5Fs.Open at hx
    split at hx
    · simp at hx
    · simp only [] at hx
      split_ifs at hx <;>
        (obtain h := Option.some.inj hx; subst h;
         simp_all [Html5Fs.GetFullPath, Path.Prepend, Path.Join])
  refine ⟨hopen flags, ?_, ?_, ?_, ?_⟩
  · intro x hx hmem
    unfold Html5Fs.Access at hx
    cases ho : Html5Fs.Open env fs p O_RDONLY with
    | none => rw [ho] at hx; simp at hx
    | some y =>
      rw [ho] at hx
      obtain h := Option.some.inj hx; subst h
      exact hopen O_RDONLY y ho hmem
  · intro x hx hmem
    unfold Html5Fs.Mkdir at hx
    split at hx
    · simp at hx
    · simp only [] at hx
      split_ifs at hx <;>
        (obtain h := Option.some.inj hx; subst h;
         simp_all [Html5Fs.GetFullPath, Path.Prepend, Path.Join])
  · intro x hx hmem
    unfold Html5Fs.RemoveInternal at hx
    split at hx
    · simp at hx
    · simp only [] at hx
      split_ifs at hx <;>
        (try split at hx) <;>
        (obtain h := Option.some.inj hx; subst h;
         simp_all [Html5Fs.GetFullPath, Path.Prepend, Path.Join])
  · intro x hx hmem
    unfold Html5Fs.Rename at hx
    split at hx
    · simp at hx
    · simp only [] at hx
      split_ifs at hx <;>
        (obtain h := Option.some.inj hx; subst h;
         simp_all [Html5Fs.GetFullPath, Path.Prepend, Path.Join])

/-- C5 witness (for the intended-dataflow theorem): a concrete successful open
issues exactly one reference creation, whose path is the prefix /p prepended
to the logical path /a. -/
theorem created_paths_are_prefixed_witness :
    Html5Fs.Open envCreate7 fsReady "/a" 0
      = some (0, some { fileref := 7 }, [ServiceCall.createRef "/p/a"]) ∧
    "/p/a" = fsReady.prefix_ ++ "/a" :=
  ⟨by decide,
   (created_paths_are_prefixed envCreate7 fsReady "/a" "/b" 0 0 0 0 "/p/a").1
     (0, some { fileref := 7 }, [ServiceCall.createRef "/p/a"])
     (by decide) (by decide)⟩

/-- C6 counterexample: a configuration map holding a validated
filesystem_resource entry followed (in map iteration order) by an unrecognized
key fails initialization with EINVAL, but only after issuing storage-service
calls (the handle validation and the reference addition), so the claim that no
storage-service call is performed fails. -/
theorem bad_key_after_resource_counterexample :
    (Html5Fs.Init envValid7
        { ppapi := true,
          string_map := [("filesystem_resource", "7"), ("zzz", "x")] }).1
      = EINVAL ∧
    (Html5Fs.Init envValid7
        { ppapi := true,
          string_map := [("filesystem_resource", "7"), ("zzz", "x")] }).2.2
      = [ServiceCall.isFileSystem 7, ServiceCall.addRefResource 7] ∧
    ([ServiceCall.isFileSystem 7, ServiceCall.addRefResource 7] :
        List ServiceCall) ≠ [] := by
  decide

/-- C6 (amended): when every configuration entry preceding a rejected entry
(an unrecognized key, or type mapped to a value other than PERSISTENT,
TEMPORARY or empty) parses successfully, initialization fails with EINVAL and
issues no filesystem create or open request; the only storage-service calls
possibly issued before the failure are the handle validation and reference
addition of an earlier filesystem_resource entry. -/
theorem bad_config_einval_no_create_open (env : Env)
    (pre rest : List (String × String)) (k v : String) (st : ParseState)
    (hpre : parseArgs env ParseState.start pre = Except.ok st)
    (hbad : badEntry k v) :
    Html5Fs.Init env { ppapi := true, string_map := pre ++ (k, v) :: rest }
      = (EINVAL, st.fs, st.calls) ∧
    handleCallsOnly st.calls := by
  have hstart : handleCallsOnly ParseState.start.calls := by
    intro c hc
    simp [ParseState.start] at hc
  have hcalls := (parseArgs_handle_calls env pre ParseState.start hstart).1 st hpre
  have happ := parseArgs_append env ParseState.start pre ((k, v) :: rest)
  rw [hpre] at happ
  simp only [] at happ
  have hstep : parseArgs env st ((k, v) :: rest) = Except.error (EINVAL, st) := by
    unfold parseArgs
    rw [parseArg_bad env st k v hbad]
  rw [hstep] at happ
  refine ⟨?_, hcalls⟩
  simp [Html5Fs.Init, happ]

/-- C6 (amended) witness: the amended statement at the counterexample's
concrete configuration. -/
theorem bad_config_einval_no_create_open_witness :
    Html5Fs.Init envValid7
        { ppapi := true,
          string_map := [("filesystem_resource", "7"), ("zzz", "x")] }
      = (EINVAL, stRes7.fs, stRes7.calls) ∧
    handleCallsOnly stRes7.calls :=
  bad_config_einval_no_create_open envValid7 [("filesystem_resource", "7")] []
    "zzz" "x" stRes7 rfl (by unfold badEntry; decide)

/-- C8: with a ppapi interface present, (a) a configuration whose parse
adopted a nonzero pre-supplied filesystem resource makes Init return success
with the readiness gate immediately resolved to success, issuing no filesystem
create and no open request — and such a resource can only come from a
filesystem_resource entry of the map whose identifier the storage service
validated; (b) a filesystem_resource entry whose identifier the storage
service does not validate makes Init fail with EINVAL. -/
theorem presupplied_resource_gate (env : Env) (args : FsInitArgs)
    (st : ParseState) (hpp : args.ppapi = true) :
    (parseArgs env ParseState.start args.string_map = Except.ok st →
      st.fs.filesystem_resource_ ≠ 0 →
      Html5Fs.Init env args
        = (0, { st.fs with filesystem_open_has_result_ := true,
                           filesystem_open_error_ := 0 }, st.calls) ∧
      handleCallsOnly st.calls ∧
      ∃ s, ("filesystem_resource", s) ∈ args.string_map ∧
        strtoull s % 2 ^ 32 = st.fs.filesystem_resource_ ∧
        env.isFileSystem st.fs.filesystem_resource_ = true) ∧
    (∀ pre s rest, args.string_map = pre ++ ("filesystem_resource", s) :: rest →
      parseArgs env ParseState.start pre = Except.ok st →
      env.isFileSystem (strtoull s % 2 ^ 32) = false →
      Html5Fs.Init env args
        = (EINVAL, st.fs,
           st.calls ++ [ServiceCall.isFileSystem (strtoull s % 2 ^ 32)])) := by
  have hstart : handleCallsOnly ParseState.start.calls := by
    intro c hc
    simp [ParseState.start] at hc
  constructor
  · intro hparse hne
    refine ⟨?_, ?_, ?_⟩
    · simp [Html5Fs.Init, hpp, hparse, hne, PPErrorToErrno, PP_OK]
    · exact (parseArgs_handle_calls env args.string_map ParseState.start hstart).1
        st hparse
    · rcases parseArgs_resource_source env args.string_map ParseState.start st
          hparse hne with heq | hex
      · exact absurd heq.symm hne
      · exact hex
  · intro pre s rest hmap hpre hinv
    have happ := parseArgs_append env ParseState.start pre
        (("filesystem_resource", s) :: rest)
    rw [hpre] at happ
    simp only [] at happ
    have harg : parseArg env st ("filesystem_resource", s)
        = Except.error (EINVAL,
            { st with
                calls := st.calls ++
                  [ServiceCall.isFileSystem (strtoull s % 2 ^ 32)] }) := by
      unfold parseArg
      dsimp only
      rw [if_neg (by decide), if_neg (by decide), if_pos rfl,
          if_pos (by simpa using hinv)]
    have hstep : parseArgs env st (("filesystem_resource", s) :: rest)
        = Except.error (EINVAL,
            { st with
                calls := st.calls ++
                  [ServiceCall.isFileSystem (strtoull s % 2 ^ 32)] }) := by
      unfold parseArgs
      rw [harg]
    rw [hstep] at happ
    simp [Html5Fs.Init, hpp, hmap, happ]

/-- C8 witness: a pre-supplied resource the oracle validates resolves the gate
immediately with only the validation and reference-addition calls; one the
oracle rejects fails with EINVAL. -/
theorem presupplied_resource_gate_witness :
    (Html5Fs.Init envValid7
        { ppapi := true, string_map := [("filesystem_resource", "7")] }
      = (0, { filesystem_resource_ := 7, filesystem_open_has_result_ := true,
              filesystem_open_error_ := 0, prefix_ := "" },
         [ServiceCall.isFileSystem 7, ServiceCall.addRefResource 7])) ∧
    (Html5Fs.Init envNull
        { ppapi := true, string_map := [("filesystem_resource", "7")] }
      = (EINVAL, Html5Fs.init, [ServiceCall.isFileSystem 7])) := by
  constructor
  · exact ((presupplied_resource_gate envValid7
      { ppapi := true, string_map := [("filesystem_resource", "7")] }
      stRes7 rfl).1 rfl (by decide)).1
  · exact (presupplied_resource_gate envNull
      { ppapi := true, string_map := [("filesystem_resource", "7")] }
      ParseState.start rfl).2 [] "7" [] rfl rfl rfl

/-- C9: access(path, mode) returns exactly the result of open(path) with
read-only flags with the node discarded, and the mode argument has no effect
on the outcome. -/
theorem access_is_open_rdonly (env : Env) (fs : Html5Fs) (p : Path) (m m2 : Int) :
    Html5Fs.Access env fs p m =
      (Html5Fs.Open env fs p O_RDONLY).map (fun x => (x.1, x.2.2)) ∧
    Html5Fs.Access env fs p m = Html5Fs.Access env fs p m2 := by
  constructor
  · unfold Html5Fs.Access
    cases Html5Fs.Open env fs p O_RDONLY <;> rfl
  · rfl

/-- C10: open yields a node in the caller's output slot exactly when it
returns success; on every failure return (gate error, reference-creation
failure, node-initialization failure) the slot holds null, as first written. -/
theorem open_node_iff_success (env : Env) (fs : Html5Fs) (p : Path)
    (flags : Int) (e : Error) (n : Option Html5Fs.Node) (cs : List ServiceCall)
    (h : Html5Fs.Open env fs p flags = some (e, n, cs)) :
    (e = 0 → n.isSome) ∧ (e ≠ 0 → n = none) := by
  unfold Html5Fs.Open at h
  split at h
  · simp at h
  · simp only [] at h
    split_ifs at h with h1 h2 h3 <;>
    · simp only [Option.some.injEq, Prod.mk.injEq] at h
      obtain ⟨he, hn, -⟩ := h
      subst he
      subst hn
      constructor <;> intro hx <;> simp_all [ENOENT]

/-- C10 witness: a successful concrete open stores a node; a concrete
reference-creation failure leaves the slot null. -/
theorem open_node_iff_success_witness :
    (Html5Fs.Open envCreate7 fsReady "/a" 0
      = some (0, some { fileref := 7 }, [ServiceCall.createRef "/p/a"])) ∧
    (Option.some { fileref := 7 } : Option Html5Fs.Node).isSome :=
  ⟨by decide,
   (open_node_iff_success envCreate7 fsReady "/a" 0 0
      (some { fileref := 7 }) [ServiceCall.createRef "/p/a"] (by decide)).1 rfl⟩

end NaclIo
